import Mathlib

/-!
Verification development for the ApiDetector browser extension
(capture-to-storage pipeline, session lifecycle, and AI query service).

The definitions below are a shallow embedding of the JavaScript sources:

* `interceptor.js` — the page-injected network observer (fetch/XHR wrappers,
  the `isActive` flag and its `GEMINI_INTERCEPTOR_STATE` message listener);
* `content.js` — the session bridge (page-load id tagging, `NEW_PAGE_LOAD`);
* `background.js` — the IndexedDB-backed log store (`saveRequest`,
  `getRequestsByPageLoadId`, `clearAllRequests`, `deleteRequestById`),
  the `onMessage` dispatcher, and the provider calls (`callGeminiAPI`,
  `callOpenRouterAPI`) together with the `ASK_GEMINI` handler.

IndexedDB is modelled as an in-memory list of records plus the object
store's auto-increment key generator (`nextId`); `store.clear()` empties the
record list but, as in IndexedDB, does not reset the key generator.
JavaScript truthiness on strings (`null`/`undefined` and `""` are falsy) is
modelled explicitly wherever the source relies on it.
-/

namespace ApiDetector

/-- JavaScript `hay.includes(needle)`: case-sensitive substring test. -/
def strIncludes (hay needle : String) : Bool :=
  (List.range (hay.data.length + 1)).any fun i =>
    List.isPrefixOf needle.data (hay.data.drop i)

/-- The payload of an `INTERCEPTED_REQUEST` message as it reaches
`background.js` (after `content.js` attached `pageLoadId`).  The message
carries no `id` field: keys are assigned only by the store. -/
structure InterceptedMessage where
  url : String
  method : String
  responseBody : String
  contentType : Option String
  timestamp : Nat
  pageLoadId : String
  deriving Repr, DecidableEq

/-- One record of the IndexedDB `requests` object store
(keyPath `id`, autoIncrement). -/
structure StoredRecord where
  id : Nat
  url : String
  method : String
  responseBody : String
  contentType : Option String
  timestamp : Nat
  pageLoadId : String
  deriving Repr, DecidableEq

/-- The `requests` object store: its records plus the auto-increment key
generator (IndexedDB key generators start at 1). -/
structure DB where
  records : List StoredRecord
  nextId : Nat
  deriving Repr, DecidableEq

/-- A freshly created (empty) database. -/
def initialDB : DB := ⟨[], 1⟩

/-- `saveRequest(requestData)` from `background.js`: `store.add` assigns the
next auto-increment key and resolves with it (`request.result`). -/
def saveRequest (db : DB) (m : InterceptedMessage) : DB × Nat :=
  ({ records := db.records ++
       [⟨db.nextId, m.url, m.method, m.responseBody, m.contentType,
         m.timestamp, m.pageLoadId⟩],
     nextId := db.nextId + 1 },
   db.nextId)

/-- The JSON filter of the `INTERCEPTED_REQUEST` handler:
`message.contentType && message.contentType.includes('application/json')`.
JavaScript truthiness: `null`/`undefined` and the empty string are falsy. -/
def isJsonContentType (ct : Option String) : Bool :=
  match ct with
  | none => false
  | some s => if s = "" then false else strIncludes s "application/json"

/-- The `INTERCEPTED_REQUEST` branch of the `onMessage` listener in
`background.js`: save the record when the content type passes the JSON
filter, otherwise do nothing.  Returns the store state and the assigned key
(`none` when the message was dropped). -/
def handleInterceptedRequest (db : DB) (m : InterceptedMessage) :
    DB × Option Nat :=
  if isJsonContentType m.contentType then
    ((saveRequest db m).1, some (saveRequest db m).2)
  else (db, none)

/-- The store state after delivering one intercepted message. -/
def putMessage (db : DB) (m : InterceptedMessage) : DB :=
  (handleInterceptedRequest db m).1

/-- Deliver a sequence of intercepted messages to the store. -/
def putAll (db : DB) (msgs : List InterceptedMessage) : DB :=
  msgs.foldl putMessage db

/-- `getRequestsByPageLoadId(pageLoadId)` from `background.js`: the
`pageLoadId` index's `getAll`, i.e. every record whose `pageLoadId`
matches. -/
def getRequestsByPageLoadId (db : DB) (pid : String) : List StoredRecord :=
  db.records.filter fun r => r.pageLoadId == pid

/-- `clearAllRequests()` from `background.js`: `store.clear()` removes every
record; the auto-increment key generator is not reset. -/
def clearAllRequests (db : DB) : DB :=
  { db with records := [] }

/-- The `NEW_PAGE_LOAD` branch of the `onMessage` listener: clear the whole
database when a new page load (session) begins. -/
def handleNewPageLoad (db : DB) : DB := clearAllRequests db

/-- `deleteRequestById(id)` from the background-script draft:
`store.delete(id)` removes the record with that key; IndexedDB `delete`
succeeds whether or not such a record exists. -/
def deleteRequestById (db : DB) (i : Nat) : DB :=
  { db with records := db.records.filter fun r => !(r.id == i) }

/-- The `DELETE_LOG` branch of the `onMessage` listener: delete the record
and respond `{success: true}` (the delete request itself never errors on a
missing key). -/
def handleDeleteLog (db : DB) (logId : Nat) : DB × Bool :=
  (deleteRequestById db logId, true)

/-- The persistence condition exactly as the specification words it: the
`contentType` is non-null and contains the substring `application/json`. -/
def specJsonCondition (ct : Option String) : Bool :=
  match ct with
  | none => false
  | some s => strIncludes s "application/json"

theorem isJsonContentType_eq_spec (ct : Option String) :
    isJsonContentType ct = specJsonCondition ct := by
  cases ct with
  | none => rfl
  | some s =>
    by_cases h : s = ""
    · subst h; decide
    · simp [isJsonContentType, specJsonCondition, h]

/-- Claim C1: `put` persists an intercepted exchange if and only if its
`contentType` is non-null and contains the case-sensitive substring
`application/json`; every other exchange is dropped with no error and
leaves the store unchanged (and no key is assigned). -/
theorem put_persists_iff_json (db : DB) (m : InterceptedMessage) :
    handleInterceptedRequest db m =
      if specJsonCondition m.contentType then
        ({ records := db.records ++
             [⟨db.nextId, m.url, m.method, m.responseBody, m.contentType,
               m.timestamp, m.pageLoadId⟩],
           nextId := db.nextId + 1 },
         some db.nextId)
      else (db, none) := by
  rw [handleInterceptedRequest, isJsonContentType_eq_spec]
  by_cases h : specJsonCondition m.contentType
  · simp [h, saveRequest]
  · simp [h]

theorem putMessage_records (db : DB) (m : InterceptedMessage) :
    (putMessage db m).records = db.records ∨
    (putMessage db m).records = db.records ++
      [⟨db.nextId, m.url, m.method, m.responseBody, m.contentType,
        m.timestamp, m.pageLoadId⟩] := by
  by_cases h : isJsonContentType m.contentType
  · exact Or.inr (by simp [putMessage, handleInterceptedRequest, h, saveRequest])
  · exact Or.inl (by simp [putMessage, handleInterceptedRequest, h])

theorem mem_putAll_records (msgs : List InterceptedMessage) (db : DB)
    (r : StoredRecord) (hr : r ∈ (putAll db msgs).records) :
    r ∈ db.records ∨ ∃ m ∈ msgs, r.pageLoadId = m.pageLoadId := by
  induction msgs generalizing db with
  | nil => exact Or.inl hr
  | cons m ms ih =>
    rcases ih (putMessage db m) hr with h | h
    · rcases putMessage_records db m with he | he
      · rw [he] at h
        exact Or.inl h
      · rw [he, List.mem_append] at h
        rcases h with h | h
        · exact Or.inl h
        · simp only [List.mem_singleton] at h
          subst h
          exact Or.inr ⟨m, List.mem_cons_self m ms, rfl⟩
    · rcases h with ⟨m', hm', hpid⟩
      exact Or.inr ⟨m', List.mem_cons_of_mem m hm', hpid⟩

/-- Claim C2: after a new page load (session `s2`) following any sequence of
puts under session `s1`, querying for `s1` returns the empty list and
querying for `s2` returns only records tagged `s2`: the new-page-load event
triggers `clearAllRequests`, which removes every record regardless of
session, so the store never holds more than one session's data. -/
theorem session_isolation (db : DB) (msgs1 msgs2 : List InterceptedMessage)
    (s1 s2 : String) (hne : s1 ≠ s2)
    (h2 : ∀ m ∈ msgs2, m.pageLoadId = s2) :
    getRequestsByPageLoadId
        (putAll (handleNewPageLoad (putAll db msgs1)) msgs2) s1 = [] ∧
    ∀ r ∈ getRequestsByPageLoadId
        (putAll (handleNewPageLoad (putAll db msgs1)) msgs2) s2,
      r.pageLoadId = s2 := by
  constructor
  · rw [getRequestsByPageLoadId, List.filter_eq_nil_iff]
    intro r hr
    rcases mem_putAll_records msgs2 _ r hr with h | h
    · simp [handleNewPageLoad, clearAllRequests] at h
    · rcases h with ⟨m, hm, hpid⟩
      rw [hpid, h2 m hm]
      simp [Ne.symm hne]
  · intro r hr
    rw [getRequestsByPageLoadId, List.mem_filter] at hr
    exact eq_of_beq hr.2

/-- Witness for C2 at a concrete store history: one JSON put under session
`"s1"`, a new page load, one JSON put under `"s2"`; the `"s1"` query is
empty. -/
theorem session_isolation_witness :
    getRequestsByPageLoadId
        (putAll (handleNewPageLoad (putAll initialDB
          [⟨"https://a.example/x", "GET", "\x7b\"a\":1\x7d",
            some "application/json", 5, "s1"⟩]))
          [⟨"https://a.example/y", "POST", "\x7b\"b\":2\x7d",
            some "application/json; charset=utf-8", 9, "s2"⟩]) "s1" = [] :=
  (session_isolation initialDB
    [⟨"https://a.example/x", "GET", "\x7b\"a\":1\x7d", some "application/json",
      5, "s1"⟩]
    [⟨"https://a.example/y", "POST", "\x7b\"b\":2\x7d",
      some "application/json; charset=utf-8", 9, "s2"⟩]
    "s1" "s2" (by decide) (by decide)).1

/-- Deliver a sequence of intercepted messages and collect the keys the
store assigned to the ones that were persisted, in call-completion order. -/
def processSequence (db : DB) : List InterceptedMessage → DB × List Nat
  | [] => (db, [])
  | m :: ms =>
    ((processSequence (handleInterceptedRequest db m).1 ms).1,
      (handleInterceptedRequest db m).2.elim
        (processSequence (handleInterceptedRequest db m).1 ms).2
        (fun i => i :: (processSequence (handleInterceptedRequest db m).1 ms).2))

theorem processSequence_lower_bound (msgs : List InterceptedMessage)
    (db : DB) : ∀ i ∈ (processSequence db msgs).2, db.nextId ≤ i := by
  induction msgs generalizing db with
  | nil => intro i hi; simp [processSequence] at hi
  | cons m ms ih =>
    intro i hi
    by_cases h : isJsonContentType m.contentType
    · simp only [processSequence, handleInterceptedRequest, h, if_true,
        saveRequest, Option.elim, List.mem_cons] at hi
      rcases hi with hi | hi
      · exact le_of_eq hi.symm
      · exact le_trans (Nat.le_succ _) (ih _ i hi)
    · simp only [processSequence, handleInterceptedRequest, h, if_false,
        Option.elim] at hi
      exact ih _ i hi

/-- Claim C7: for any sequence of puts, the keys assigned to the
successfully persisted records are strictly increasing in call-completion
order, hence pairwise distinct.  The intercepted messages carry no `id`
field; keys come only from the store's auto-increment generator. -/
theorem assigned_ids_strictly_increasing (db : DB)
    (msgs : List InterceptedMessage) :
    List.Pairwise (· < ·) (processSequence db msgs).2 ∧
    (processSequence db msgs).2.Nodup := by
  have hpw : List.Pairwise (· < ·) (processSequence db msgs).2 := by
    induction msgs generalizing db with
    | nil => simp [processSequence]
    | cons m ms ih =>
      by_cases h : isJsonContentType m.contentType
      · simp only [processSequence, handleInterceptedRequest, h, if_true,
          saveRequest, Option.elim, List.pairwise_cons]
        refine ⟨fun i hi => ?_, ih _⟩
        have := processSequence_lower_bound ms _ i hi
        simp only [saveRequest] at this
        omega
      · simp only [processSequence, handleInterceptedRequest, h, if_false,
          Option.elim]
        exact ih _
  exact ⟨hpw, hpw.imp (fun hlt => Nat.ne_of_lt hlt)⟩

/-- Claim C8: a record inserted with given values for every field, when
retrieved via the session query for its own session, is found with every
inserted field unchanged and only the key `id` store-assigned (the key
generator's current value). -/
theorem insert_roundtrip (db : DB) (m : InterceptedMessage) :
    (⟨(saveRequest db m).2, m.url, m.method, m.responseBody, m.contentType,
        m.timestamp, m.pageLoadId⟩ : StoredRecord) ∈
      getRequestsByPageLoadId (saveRequest db m).1 m.pageLoadId ∧
    (saveRequest db m).2 = db.nextId := by
  constructor
  · rw [getRequestsByPageLoadId, List.mem_filter]
    exact ⟨by simp [saveRequest], by simp⟩
  · rfl

/-- Claim C9: deleting the same key twice leaves the store exactly as one
deletion does, and the second delete still reports success — removing a
non-existent key is not an error. -/
theorem delete_idempotent (db : DB) (x : Nat) :
    deleteRequestById (deleteRequestById db x) x = deleteRequestById db x ∧
    (handleDeleteLog (deleteRequestById db x) x).2 = true := by
  refine ⟨?_, rfl⟩
  simp only [deleteRequestById]
  congr 1
  exact List.filter_eq_self.mpr fun r hr => (List.mem_filter.mp hr).2

/-- The argument list of a call through the patched `window.fetch`:
either a `Request` object (`args[0] instanceof Request`, carrying its own
url and method) or a url string with an optional `init.method`. -/
inductive FetchInput where
  | request (url : String) (method : String)
  | urlString (url : String) (methodInit : Option String)
  deriving Repr, DecidableEq

/-- `args[0] instanceof Request ? args[0].url : args[0]`. -/
def fetchInputUrl : FetchInput → String
  | .request u _ => u
  | .urlString u _ => u

/-- `args[0] instanceof Request ? args[0].method : (args[1]?.method || 'GET')`
(the empty string is falsy, so it also defaults to `GET`). -/
def fetchInputMethod : FetchInput → String
  | .request _ m => m
  | .urlString _ mi =>
    match mi with
    | none => "GET"
    | some m => if m = "" then "GET" else m

/-- The resolved `Response`: its `Content-Type` header
(`response.headers.get` returns `null` when absent) and the outcome of
decoding the cloned body as text (`responseClone.text()` resolves with the
body or rejects with an error message). -/
structure FetchResponse where
  contentTypeHeader : Option String
  cloneText : Except String String
  deriving Repr

/-- The `INTERCEPTED_REQUEST` window message the interceptor posts: url,
method, decoded body, raw `Content-Type` header and capture instant.  It
carries no session identifier — tagging is `content.js`'s job. -/
structure CaptureEvent where
  url : String
  method : String
  responseBody : String
  contentType : Option String
  timestamp : Nat
  deriving Repr, DecidableEq

/-- The patched `window.fetch` from `interceptor.js`: extract url and
method from the caller's arguments, invoke the original fetch with those
same arguments, and return its response unchanged.  The body is decoded
only from an independent clone; when the decode resolves and the `isActive`
flag is set, a capture event is posted, and a decode rejection is caught
(capture dropped, nothing propagated).  Result: the response handed back to
the caller, paired with the emitted capture event, if any. -/
def fetchWrapper (originalFetch : FetchInput → FetchResponse)
    (isActive : Bool) (input : FetchInput) (now : Nat) :
    FetchResponse × Option CaptureEvent :=
  let response := originalFetch input
  (response,
    match response.cloneText with
    | .error _ => none
    | .ok body =>
      if isActive then
        some ⟨fetchInputUrl input, fetchInputMethod input, body,
          response.contentTypeHeader, now⟩
      else none)

/-- The state of one `XMLHttpRequest` at `onload` time: the method and url
recorded when `open` was patched, `this.responseText`, the `this.response`
fallback, and the `Content-Type` response header. -/
structure XhrCompletion where
  requestUrl : String
  requestMethod : String
  responseText : String
  responseAlt : String
  contentTypeHeader : Option String
  deriving Repr, DecidableEq

/-- The replacement `onload` handler installed by the patched `send`:
first invoke the page's pre-existing `onload` handler if there is one, then,
when `isActive`, post a capture with `this.responseText || this.response`
as the body.  Result: whether the original handler was invoked, paired with
the emitted capture event, if any. -/
def xhrOnload (isActive : Bool) (hasOriginalOnload : Bool)
    (x : XhrCompletion) (now : Nat) : Bool × Option CaptureEvent :=
  (hasOriginalOnload,
    if isActive then
      some ⟨x.requestUrl, x.requestMethod,
        (if x.responseText = "" then x.responseAlt else x.responseText),
        x.contentTypeHeader, now⟩
    else none)

/-- A `window` message event as seen by the interceptor's listener:
whether `event.source === window`, the `event.data.type` tag, and the
`event.data.isActive` payload of a state message. -/
structure WindowEvent where
  sameSource : Bool
  msgType : String
  stateIsActive : Bool
  deriving Repr, DecidableEq

/-- The interceptor's `message` listener: the `isActive` flag is reassigned
only on a same-window `GEMINI_INTERCEPTOR_STATE` message. -/
def interceptorStateUpdate (isActive : Bool) (e : WindowEvent) : Bool :=
  if e.sameSource && (e.msgType == "GEMINI_INTERCEPTOR_STATE") then
    e.stateIsActive
  else isActive

/-- Claim C3: the patched fetch invokes the original fetch unconditionally
with the caller's arguments and returns that original response object
untouched, whatever the armed state; and when decoding the cloned body
fails, that one capture is dropped (no event emitted) without propagating
to the caller. -/
theorem fetch_wrapper_transparent (originalFetch : FetchInput → FetchResponse)
    (isActive : Bool) (input : FetchInput) (now : Nat) :
    (fetchWrapper originalFetch isActive input now).1 = originalFetch input ∧
    ∀ e, (originalFetch input).cloneText = Except.error e →
      (fetchWrapper originalFetch isActive input now).2 = none := by
  refine ⟨rfl, fun e he => ?_⟩
  simp [fetchWrapper, he]

/-- Witness for C3 at a concrete call whose cloned body fails to decode. -/
theorem fetch_wrapper_transparent_witness :
    (fetchWrapper (fun _ => ⟨some "application/octet-stream",
        Except.error "decode failed"⟩) true
      (.urlString "https://a.example/bin" none) 7).1 =
      ⟨some "application/octet-stream", Except.error "decode failed"⟩ ∧
    (fetchWrapper (fun _ => ⟨some "application/octet-stream",
        Except.error "decode failed"⟩) true
      (.urlString "https://a.example/bin" none) 7).2 = none :=
  ⟨(fetch_wrapper_transparent _ true _ 7).1,
   (fetch_wrapper_transparent _ true _ 7).2 "decode failed" rfl⟩

/-- Claim C4: while the `isActive` flag is false, neither the fetch wrapper
nor the XHR `onload` wrapper emits any capture event, while the original
response still passes through (the fetch caller gets the original response;
the page's own `onload` handler is still invoked); and the flag is
reassigned only by a same-window `GEMINI_INTERCEPTOR_STATE` message. -/
theorem unarmed_no_emission (originalFetch : FetchInput → FetchResponse)
    (input : FetchInput) (now now2 : Nat) (x : XhrCompletion)
    (hasOriginalOnload : Bool) :
    (fetchWrapper originalFetch false input now).2 = none ∧
    (fetchWrapper originalFetch false input now).1 = originalFetch input ∧
    (xhrOnload false hasOriginalOnload x now2).2 = none ∧
    (xhrOnload false hasOriginalOnload x now2).1 = hasOriginalOnload ∧
    ∀ (cur : Bool) (e : WindowEvent),
      ¬(e.sameSource = true ∧ e.msgType = "GEMINI_INTERCEPTOR_STATE") →
      interceptorStateUpdate cur e = cur := by
  refine ⟨?_, rfl, rfl, rfl, ?_⟩
  · simp only [fetchWrapper]
    cases h : (originalFetch input).cloneText <;> simp
  · intro cur e he
    rw [interceptorStateUpdate, if_neg]
    intro hcond
    rw [Bool.and_eq_true, beq_iff_eq] at hcond
    exact he hcond

/-- Witness for C4: a disarmed fetch capture and XHR completion emit
nothing, and an unrelated window message leaves the flag untouched. -/
theorem unarmed_no_emission_witness :
    (fetchWrapper (fun _ => ⟨some "application/json",
        Except.ok "\x7b\"a\":1\x7d"⟩) false
      (.request "https://a.example/api" "GET") 3).2 = none ∧
    (xhrOnload false true
      ⟨"https://a.example/api", "GET", "\x7b\"a\":1\x7d", "",
        some "application/json"⟩ 4).2 = none ∧
    interceptorStateUpdate true ⟨true, "INTERCEPTED_REQUEST", false⟩ = true :=
  ⟨(unarmed_no_emission (fun _ => ⟨some "application/json",
      Except.ok "\x7b\"a\":1\x7d"⟩)
      (.request "https://a.example/api" "GET") 3 4
      ⟨"https://a.example/api", "GET", "\x7b\"a\":1\x7d", "",
        some "application/json"⟩ true).1,
   (unarmed_no_emission (fun _ => ⟨some "application/json",
      Except.ok "\x7b\"a\":1\x7d"⟩)
      (.request "https://a.example/api" "GET") 3 4
      ⟨"https://a.example/api", "GET", "\x7b\"a\":1\x7d", "",
        some "application/json"⟩ true).2.2.1,
   (unarmed_no_emission (fun _ => ⟨some "application/json",
      Except.ok "\x7b\"a\":1\x7d"⟩)
      (.request "https://a.example/api" "GET") 3 4
      ⟨"https://a.example/api", "GET", "\x7b\"a\":1\x7d", "",
        some "application/json"⟩ true).2.2.2.2 true
      ⟨true, "INTERCEPTED_REQUEST", false⟩ (by decide)⟩

/-- The `chrome.storage.sync` state the `ASK_GEMINI` handler reads:
provider preference and the two provider credentials (each absent or a
stored string). -/
structure SyncStorage where
  apiProvider : Option String
  geminiApiKey : Option String
  openrouterApiKey : Option String
  deriving Repr, DecidableEq

/-- What the `ASK_GEMINI` handler sends back through `sendResponse`:
an `{error}` result, an `{answer}` result, or nothing at all (the handler
fell through every branch and `sendResponse` was never called). -/
inductive AskOutcome where
  | respondError (msg : String)
  | respondAnswer (ans : String)
  | noResponse
  deriving Repr, DecidableEq

/-- The observable behaviour of one `ASK_GEMINI` handling: the response (if
any), whether the stored logs were retrieved, and whether the external
provider was called. -/
structure AskTrace where
  outcome : AskOutcome
  logsRetrieved : Bool
  providerCalled : Bool
  deriving Repr, DecidableEq

/-- `result.apiProvider || 'gemini'`: the absent and the empty-string
preference (both falsy) default to `gemini`. -/
def effectiveProvider (st : SyncStorage) : String :=
  match st.apiProvider with
  | none => "gemini"
  | some p => if p = "" then "gemini" else p

/-- The Gemini credential sanity check of the handler, in positive form:
`key.startsWith('AI') && key.length >= 10` (the handler rejects on its
negation). -/
def geminiKeyFormatOk (key : String) : Bool :=
  List.isPrefixOf "AI".data key.data && decide (10 ≤ key.length)

/-- Error text for a missing Gemini credential. -/
def geminiMissingKeyMsg : String :=
  "API key not found. Please set it in the extension settings."

/-- Error text for a malformed Gemini credential. -/
def geminiInvalidKeyMsg : String :=
  "Invalid API key format. Please check your API key in the settings."

/-- Error text for a missing OpenRouter credential. -/
def openrouterMissingKeyMsg : String :=
  "OpenRouter API key not found. Please set it in the extension settings."

/-- The `ASK_GEMINI` branch of the `onMessage` listener (provider-aware
draft): read the synced settings, default the provider to `gemini`, check
the chosen provider's credential (presence for both; the cheap format check
only for Gemini), then retrieve the session's logs and call the provider.
The provider calls are oracles returning either the answer or the thrown
error's message (which the surrounding catch turns into an `{error}`
response).  A provider preference matching neither branch falls through
with no response. -/
def handleAskGemini (st : SyncStorage) (db : DB) (pageLoadId question : String)
    (geminiCall openrouterCall :
      String → List StoredRecord → String → Except String String) :
    AskTrace :=
  if effectiveProvider st = "gemini" then
    match st.geminiApiKey with
    | none => ⟨.respondError geminiMissingKeyMsg, false, false⟩
    | some key =>
      if key = "" then ⟨.respondError geminiMissingKeyMsg, false, false⟩
      else if !geminiKeyFormatOk key then
        ⟨.respondError geminiInvalidKeyMsg, false, false⟩
      else
        match geminiCall key (getRequestsByPageLoadId db pageLoadId) question with
        | .ok answer => ⟨.respondAnswer answer, true, true⟩
        | .error e => ⟨.respondError e, true, true⟩
  else if effectiveProvider st = "openrouter" then
    match st.openrouterApiKey with
    | none => ⟨.respondError openrouterMissingKeyMsg, false, false⟩
    | some key =>
      if key = "" then ⟨.respondError openrouterMissingKeyMsg, false, false⟩
      else
        match openrouterCall key (getRequestsByPageLoadId db pageLoadId) question with
        | .ok answer => ⟨.respondAnswer answer, true, true⟩
        | .error e => ⟨.respondError e, true, true⟩
  else ⟨.noResponse, false, false⟩

/-- `key` is falsy: absent or the empty string. -/
def credentialMissing (key : Option String) : Bool :=
  match key with
  | none => true
  | some k => k = ""

/-- Claim C5: the precondition checks of `Ask` run in order before anything
else.  A missing credential for the chosen provider yields the
missing-credential error with no log retrieval and no provider call; a
present Gemini credential failing the cheap format check yields the
invalid-credential error, likewise before any log retrieval or provider
call (OpenRouter has no format check, so only presence is checked there). -/
theorem ask_precondition_checks (st : SyncStorage) (db : DB)
    (pageLoadId question : String)
    (geminiCall openrouterCall :
      String → List StoredRecord → String → Except String String) :
    (effectiveProvider st = "gemini" →
      credentialMissing st.geminiApiKey = true →
      handleAskGemini st db pageLoadId question geminiCall openrouterCall =
        ⟨.respondError geminiMissingKeyMsg, false, false⟩) ∧
    (effectiveProvider st = "gemini" →
      ∀ key, st.geminiApiKey = some key → key ≠ "" →
      geminiKeyFormatOk key = false →
      handleAskGemini st db pageLoadId question geminiCall openrouterCall =
        ⟨.respondError geminiInvalidKeyMsg, false, false⟩) ∧
    (effectiveProvider st = "openrouter" →
      credentialMissing st.openrouterApiKey = true →
      handleAskGemini st db pageLoadId question geminiCall openrouterCall =
        ⟨.respondError openrouterMissingKeyMsg, false, false⟩) := by
  refine ⟨fun hp hk => ?_, fun hp key hkey hne hfmt => ?_, fun hp hk => ?_⟩
  · rw [handleAskGemini, if_pos hp]
    cases hcase : st.geminiApiKey with
    | none => rfl
    | some k =>
      rw [hcase] at hk
      simp only [credentialMissing, decide_eq_true_eq] at hk
      simp [hk]
  · rw [handleAskGemini, if_pos hp, hkey]
    simp [hne, hfmt]
  · have hne : ¬ effectiveProvider st = "gemini" := by
      rw [hp]; decide
    rw [handleAskGemini, if_neg hne, if_pos hp]
    cases hcase : st.openrouterApiKey with
    | none => rfl
    | some k =>
      rw [hcase] at hk
      simp only [credentialMissing, decide_eq_true_eq] at hk
      simp [hk]

/-- A stand-in provider call used only to instantiate oracle arguments in
concrete witnesses. -/
def constCall : String → List StoredRecord → String → Except String String :=
  fun _ _ _ => Except.ok "the field a is 1"

/-- Witness for C5: no Gemini credential configured, a malformed Gemini
credential, and no OpenRouter credential, each at a concrete storage
state. -/
theorem ask_precondition_checks_witness :
    handleAskGemini ⟨none, none, none⟩ initialDB "s" "q" constCall constCall =
      ⟨.respondError geminiMissingKeyMsg, false, false⟩ ∧
    handleAskGemini ⟨some "gemini", some "WRONGKEY123", none⟩ initialDB "s" "q"
        constCall constCall =
      ⟨.respondError geminiInvalidKeyMsg, false, false⟩ ∧
    handleAskGemini ⟨some "openrouter", some "AIzaSyFAKE", none⟩ initialDB
        "s" "q" constCall constCall =
      ⟨.respondError openrouterMissingKeyMsg, false, false⟩ :=
  ⟨(ask_precondition_checks ⟨none, none, none⟩ initialDB "s" "q"
      constCall constCall).1 rfl rfl,
   (ask_precondition_checks ⟨some "gemini", some "WRONGKEY123", none⟩
      initialDB "s" "q" constCall constCall).2.1 rfl "WRONGKEY123" rfl
      (by decide) (by decide),
   (ask_precondition_checks ⟨some "openrouter", some "AIzaSyFAKE", none⟩
      initialDB "s" "q" constCall constCall).2.2 rfl rfl⟩

/-- Counterexample to C10 as stated: the empty string is a stored provider
preference other than `gemini` and `openrouter`, yet the handler does send
a response for it — `result.apiProvider || 'gemini'` defaults every falsy
preference (not only the absent one) to `gemini`, so this Ask gets the
missing-credential error rather than falling through. -/
theorem unknown_provider_counterexample :
    ("" = "gemini") = False ∧ ("" = "openrouter") = False ∧
    (handleAskGemini ⟨some "", none, none⟩ initialDB "s" "q"
        constCall constCall).outcome ≠ AskOutcome.noResponse ∧
    (handleAskGemini ⟨some "", none, none⟩ initialDB "s" "q"
        constCall constCall).outcome =
      AskOutcome.respondError geminiMissingKeyMsg := by
  refine ⟨by simp, by simp, ?_, rfl⟩
  intro h
  simp [handleAskGemini, effectiveProvider, geminiMissingKeyMsg] at h

/-- Claim C10 (amended): if the stored provider preference is any
*non-empty* value other than `gemini` or `openrouter`, the Ask request
falls through every branch of the handler and no response is sent at all —
neither an answer nor an error — with no log retrieval and no provider
call; the absent and the empty-string preference both default to
`gemini`. -/
theorem unknown_provider_no_response (st : SyncStorage) (db : DB)
    (pageLoadId question : String)
    (geminiCall openrouterCall :
      String → List StoredRecord → String → Except String String)
    (p : String) (hp : st.apiProvider = some p) (hne : p ≠ "")
    (hg : p ≠ "gemini") (ho : p ≠ "openrouter") :
    handleAskGemini st db pageLoadId question geminiCall openrouterCall =
      ⟨.noResponse, false, false⟩ := by
  have heff : effectiveProvider st = p := by
    simp [effectiveProvider, hp, hne]
  rw [handleAskGemini, if_neg (heff ▸ hg), if_neg (heff ▸ ho)]

/-- Witness for amended C10 at the concrete stored preference `claude`. -/
theorem unknown_provider_no_response_witness :
    handleAskGemini ⟨some "claude", some "AIzaSyFAKE", some "sk-or-FAKE"⟩
        initialDB "s" "q" constCall constCall =
      ⟨.noResponse, false, false⟩ :=
  unknown_provider_no_response ⟨some "claude", some "AIzaSyFAKE",
      some "sk-or-FAKE"⟩ initialDB "s" "q" constCall constCall
    "claude" rfl (by decide) (by decide) (by decide)

/-- The body of the provider's HTTP response, as `response.json()` sees it:
either unparseable (the promise rejects with a parse-error message), or
parsed JSON from which only two spots matter — the `error` field
(`none` = no such field; `some none` = an error object without a (truthy)
`message`; `some (some m)` = `error.message` is the string `m`) and the
answer text at the provider's answer path (`candidates[0].content.parts[0]
.text` for Gemini, `choices[0].message.content` for OpenRouter; `none`
when the optional chain hits nothing). -/
inductive ProviderBody where
  | unparseable (parseErrMsg : String)
  | parsed (errorField : Option (Option String)) (answerField : Option String)
  deriving Repr, DecidableEq

/-- The provider's HTTP response: `response.ok`, `response.statusText`, and
the body. -/
structure ProviderHttpResponse where
  ok : Bool
  statusText : String
  body : ProviderBody
  deriving Repr, DecidableEq

/-- `callGeminiAPI` from `background.js`, as a function of the HTTP
response it receives (`typeErrMsg` is the runtime's message for the
`TypeError` raised by `errorData.error.message` when `errorData.error` is
undefined).  On `!response.ok` it parses the error body and throws
`Gemini API error: (errorData.error.message || response.statusText)`;
every throw inside the `try` — including that one, a body-parse rejection,
and the member-access `TypeError` — is caught and rethrown as
`Failed to communicate with Gemini API: ...`.  On success it extracts the
answer text, falling back to `No answer found.` when the (falsy) answer
field is missing. -/
def callGeminiAPI (typeErrMsg : String) (resp : ProviderHttpResponse) :
    Except String String :=
  if resp.ok then
    match resp.body with
    | .unparseable pe =>
      .error ("Failed to communicate with Gemini API: " ++ pe)
    | .parsed _ answerField =>
      .ok (match answerField with
        | none => "No answer found."
        | some a => if a = "" then "No answer found." else a)
  else
    match resp.body with
    | .unparseable pe =>
      .error ("Failed to communicate with Gemini API: " ++ pe)
    | .parsed errorField _ =>
      match errorField with
      | none => .error ("Failed to communicate with Gemini API: " ++ typeErrMsg)
      | some msgField =>
        .error ("Failed to communicate with Gemini API: " ++
          ("Gemini API error: " ++
            (match msgField with
             | none => resp.statusText
             | some m => if m = "" then resp.statusText else m)))

/-- `callOpenRouterAPI` from the background-script draft: identical control
flow to `callGeminiAPI` with OpenRouter message prefixes and the
`choices[0].message.content` answer path. -/
def callOpenRouterAPI (typeErrMsg : String) (resp : ProviderHttpResponse) :
    Except String String :=
  if resp.ok then
    match resp.body with
    | .unparseable pe =>
      .error ("Failed to communicate with OpenRouter API: " ++ pe)
    | .parsed _ answerField =>
      .ok (match answerField with
        | none => "No answer found."
        | some a => if a = "" then "No answer found." else a)
  else
    match resp.body with
    | .unparseable pe =>
      .error ("Failed to communicate with OpenRouter API: " ++ pe)
    | .parsed errorField _ =>
      match errorField with
      | none =>
        .error ("Failed to communicate with OpenRouter API: " ++ typeErrMsg)
      | some msgField =>
        .error ("Failed to communicate with OpenRouter API: " ++
          ("OpenRouter API error: " ++
            (match msgField with
             | none => resp.statusText
             | some m => if m = "" then resp.statusText else m)))

/-- Counterexample to C6 as stated: a non-success HTTP response whose error
body is unparseable.  The claim says the surfaced error then carries the
raw status text; the code instead wraps the body-parse rejection
(`response.json()` rejects inside the `try`), and the surfaced message does
not contain the status text at all. -/
theorem provider_error_counterexample :
    callGeminiAPI "undefined has no properties"
        ⟨false, "Bad Gateway", .unparseable "Unexpected end of JSON input"⟩ =
      Except.error
        "Failed to communicate with Gemini API: Unexpected end of JSON input" ∧
    strIncludes
      "Failed to communicate with Gemini API: Unexpected end of JSON input"
      "Bad Gateway" = false := by
  exact ⟨rfl, by decide⟩

/-- Claim C6 (amended): on a non-success HTTP status, when the error body
parses with a truthy `error.message` the surfaced error carries the
provider's message; when it parses with an `error` object whose `message`
is absent or empty, it carries the raw status text; when the error body is
unparseable or lacks the `error` object, the surfaced error wraps the
underlying parse/access failure instead of the status text.  On a
successful response whose parsed body lacks the expected answer field, the
fixed fallback string `No answer found.` is returned.  The same holds for
the OpenRouter variant with its prefixes. -/
theorem provider_error_surfacing (typeErrMsg : String)
    (resp : ProviderHttpResponse) :
    (∀ ef af m, resp.ok = false → resp.body = .parsed ef af →
      ef = some (some m) → m ≠ "" →
      callGeminiAPI typeErrMsg resp =
        Except.error ("Failed to communicate with Gemini API: " ++
          ("Gemini API error: " ++ m)) ∧
      callOpenRouterAPI typeErrMsg resp =
        Except.error ("Failed to communicate with OpenRouter API: " ++
          ("OpenRouter API error: " ++ m))) ∧
    (∀ ef af, resp.ok = false → resp.body = .parsed ef af →
      (ef = some none ∨ ef = some (some "")) →
      callGeminiAPI typeErrMsg resp =
        Except.error ("Failed to communicate with Gemini API: " ++
          ("Gemini API error: " ++ resp.statusText)) ∧
      callOpenRouterAPI typeErrMsg resp =
        Except.error ("Failed to communicate with OpenRouter API: " ++
          ("OpenRouter API error: " ++ resp.statusText))) ∧
    (∀ pe, resp.body = .unparseable pe →
      callGeminiAPI typeErrMsg resp =
        Except.error ("Failed to communicate with Gemini API: " ++ pe) ∧
      callOpenRouterAPI typeErrMsg resp =
        Except.error ("Failed to communicate with OpenRouter API: " ++ pe)) ∧
    (∀ af, resp.ok = false → resp.body = .parsed none af →
      callGeminiAPI typeErrMsg resp =
        Except.error ("Failed to communicate with Gemini API: " ++ typeErrMsg) ∧
      callOpenRouterAPI typeErrMsg resp =
        Except.error
          ("Failed to communicate with OpenRouter API: " ++ typeErrMsg)) ∧
    (∀ ef, resp.ok = true → resp.body = .parsed ef none →
      callGeminiAPI typeErrMsg resp = Except.ok "No answer found." ∧
      callOpenRouterAPI typeErrMsg resp = Except.ok "No answer found.") := by
  obtain ⟨ok, stx, body⟩ := resp
  refine ⟨?_, ?_, ?_, ?_, ?_⟩
  · rintro ef af m hok hbody rfl hm
    simp only at hok hbody
    subst hok hbody
    exact ⟨by simp [callGeminiAPI, hm], by simp [callOpenRouterAPI, hm]⟩
  · rintro ef af hok hbody hcase
    simp only at hok hbody
    subst hok hbody
    rcases hcase with rfl | rfl
    · exact ⟨by simp [callGeminiAPI], by simp [callOpenRouterAPI]⟩
    · exact ⟨by simp [callGeminiAPI], by simp [callOpenRouterAPI]⟩
  · rintro pe hbody
    simp only at hbody
    subst hbody
    cases ok
    · exact ⟨rfl, rfl⟩
    · exact ⟨rfl, rfl⟩
  · rintro af hok hbody
    simp only at hok hbody
    subst hok hbody
    exact ⟨rfl, rfl⟩
  · rintro ef hok hbody
    simp only at hok hbody
    subst hok hbody
    exact ⟨rfl, rfl⟩

/-- Witness for amended C6: a quota error surfaced with the provider's
message, a missing `error.message` surfaced with the status text, an error
body parsing without any `error` object surfaced as the wrapped access
failure (not the status text), and a successful response without an answer
field yielding the fallback. -/
theorem provider_error_surfacing_witness :
    callGeminiAPI "tyerr"
        ⟨false, "Too Many Requests", .parsed (some (some "quota exceeded")) none⟩ =
      Except.error ("Failed to communicate with Gemini API: " ++
        ("Gemini API error: " ++ "quota exceeded")) ∧
    callOpenRouterAPI "tyerr" ⟨false, "Forbidden", .parsed (some none) none⟩ =
      Except.error ("Failed to communicate with OpenRouter API: " ++
        ("OpenRouter API error: " ++ "Forbidden")) ∧
    callGeminiAPI "tyerr" ⟨false, "Not Found", .parsed none none⟩ =
      Except.error ("Failed to communicate with Gemini API: " ++ "tyerr") ∧
    callGeminiAPI "tyerr" ⟨true, "OK", .parsed none none⟩ =
      Except.ok "No answer found." :=
  ⟨((provider_error_surfacing "tyerr"
      ⟨false, "Too Many Requests",
        .parsed (some (some "quota exceeded")) none⟩).1
      (some (some "quota exceeded")) none "quota exceeded" rfl rfl rfl
      (by decide)).1,
   ((provider_error_surfacing "tyerr"
      ⟨false, "Forbidden", .parsed (some none) none⟩).2.1
      (some none) none rfl rfl (Or.inl rfl)).2,
   ((provider_error_surfacing "tyerr"
      ⟨false, "Not Found", .parsed none none⟩).2.2.2.1 none rfl rfl).1,
   ((provider_error_surfacing "tyerr"
      ⟨true, "OK", .parsed none none⟩).2.2.2.2 none rfl rfl).1⟩

end ApiDetector
